import Mathlib

/-!
Shallow embedding of linuxkit pkg/init/cmd/service/prepare.go:
the mount option translator, filesystem preparer, namespace binder,
network interface provisioner and best-effort cleanup.

Syscalls and netlink operations are modelled by an environment `Env`
assigning an outcome to every possible call; each embedded function
returns the ordered trace of calls it issued together with its result,
sequencing exactly as the Go source does.
-/

namespace Prepare

/-- Mount flag constant MS_RDONLY from golang.org/x/sys/unix (linux). -/
def MS_RDONLY : Nat := 0x1

/-- Mount flag constant MS_NOSUID. -/
def MS_NOSUID : Nat := 0x2

/-- Mount flag constant MS_NODEV. -/
def MS_NODEV : Nat := 0x4

/-- Mount flag constant MS_NOEXEC. -/
def MS_NOEXEC : Nat := 0x8

/-- Mount flag constant MS_SYNCHRONOUS. -/
def MS_SYNCHRONOUS : Nat := 0x10

/-- Mount flag constant MS_REMOUNT. -/
def MS_REMOUNT : Nat := 0x20

/-- Mount flag constant MS_MANDLOCK. -/
def MS_MANDLOCK : Nat := 0x40

/-- Mount flag constant MS_DIRSYNC. -/
def MS_DIRSYNC : Nat := 0x80

/-- Mount flag constant MS_NOATIME. -/
def MS_NOATIME : Nat := 0x400

/-- Mount flag constant MS_NODIRATIME. -/
def MS_NODIRATIME : Nat := 0x800

/-- Mount flag constant MS_BIND. -/
def MS_BIND : Nat := 0x1000

/-- Mount flag constant MS_REC. -/
def MS_REC : Nat := 0x4000

/-- Mount flag constant MS_PRIVATE. -/
def MS_PRIVATE : Nat := 0x40000

/-- Mount flag constant MS_RELATIME. -/
def MS_RELATIME : Nat := 0x200000

/-- Mount flag constant MS_STRICTATIME. -/
def MS_STRICTATIME : Nat := 0x1000000

/-- Go's bit-clear operator `a &^ b` on non-negative machine integers:
the bits of b are removed from a. Written with xor of the common bits so
that it evaluates by kernel reduction; `andNot_eq_ldiff` below checks it
against the library's bitwise difference. -/
def andNot (a b : Nat) : Nat := a ^^^ (a &&& b)

/-- The bit-clear operator agrees with Nat.ldiff. -/
theorem andNot_eq_ldiff (a b : Nat) : andNot a b = Nat.ldiff a b := by
  refine Nat.eq_of_testBit_eq (fun i => ?_)
  simp [andNot, Nat.testBit_xor, Nat.testBit_land, Nat.testBit_ldiff]
  cases h1 : a.testBit i <;> cases h2 : b.testBit i <;> rfl

/-- A mount specification, the fields of specs.Mount that prepare.go reads:
source, destination, filesystem type and fstab-style option tokens. -/
structure MountSpec where
  source : String
  destination : String
  type : String
  options : List String
deriving Repr, DecidableEq

/-- Runtime config for one network interface (prepare.go `Interface`). -/
structure Iface where
  name : String
  add : String
  peer : String
  createInRoot : Bool
deriving Repr, DecidableEq

/-- Paths at which to bind namespaces (prepare.go `Namespaces`);
an empty string means the namespace is not bound. -/
structure Namespaces where
  cgroup : String
  ipc : String
  mnt : String
  net : String
  pid : String
  user : String
  uts : String
deriving Repr, DecidableEq

/-- The runtime config processed by prepare.go (`Runtime`). -/
structure Runtime where
  mounts : List MountSpec
  mkdir : List String
  interfaces : List Iface
  bindNS : Namespaces
deriving Repr, DecidableEq

/-- The all-empty runtime configuration (zero value of `Runtime`). -/
def emptyRuntime : Runtime :=
  { mounts := [], mkdir := [], interfaces := [],
    bindNS := { cgroup := "", ipc := "", mnt := "", net := "", pid := "", user := "", uts := "" } }

/-- The static `flags` table of parseMountOptions: recognized token to
(clear : Bool, flag value). Unrecognized tokens yield `none`. -/
def flagsTable : String → Option (Bool × Nat)
  | "async" => some (true, MS_SYNCHRONOUS)
  | "atime" => some (true, MS_NOATIME)
  | "bind" => some (false, MS_BIND)
  | "defaults" => some (false, 0)
  | "dev" => some (true, MS_NODEV)
  | "diratime" => some (true, MS_NODIRATIME)
  | "dirsync" => some (false, MS_DIRSYNC)
  | "exec" => some (true, MS_NOEXEC)
  | "mand" => some (false, MS_MANDLOCK)
  | "noatime" => some (false, MS_NOATIME)
  | "nodev" => some (false, MS_NODEV)
  | "nodiratime" => some (false, MS_NODIRATIME)
  | "noexec" => some (false, MS_NOEXEC)
  | "nomand" => some (true, MS_MANDLOCK)
  | "norelatime" => some (true, MS_RELATIME)
  | "nostrictatime" => some (true, MS_STRICTATIME)
  | "nosuid" => some (false, MS_NOSUID)
  | "rbind" => some (false, MS_BIND ||| MS_REC)
  | "relatime" => some (false, MS_RELATIME)
  | "remount" => some (false, MS_REMOUNT)
  | "ro" => some (false, MS_RDONLY)
  | "rw" => some (true, MS_RDONLY)
  | "strictatime" => some (false, MS_STRICTATIME)
  | "suid" => some (true, MS_NOSUID)
  | "sync" => some (false, MS_SYNCHRONOUS)
  | _ => none

/-- The loop body of parseMountOptions, carrying the flag accumulator and
the data list: a recognized token with non-zero flag value sets or clears
its bit, every other token is appended to the data list. -/
def parseMountOptionsAux (flag : Nat) (data : List String) : List String → Nat × List String
  | [] => (flag, data)
  | o :: rest =>
    match flagsTable o with
    | some fr =>
      if fr.2 ≠ 0 then
        if fr.1 then parseMountOptionsAux (andNot flag fr.2) data rest
        else parseMountOptionsAux (flag ||| fr.2) data rest
      else parseMountOptionsAux flag (data ++ [o]) rest
    | none => parseMountOptionsAux flag (data ++ [o]) rest

/-- parseMountOptions: fstab style mount options to (mount flags, comma
joined data string for the filesystem). -/
def parseMountOptions (options : List String) : Nat × String :=
  let r := parseMountOptionsAux 0 [] options
  (r.1, String.intercalate "," r.2)

/-- The effect of one option token on the flag accumulator alone. -/
def applyOpt (flag : Nat) (o : String) : Nat :=
  match flagsTable o with
  | some fr => if fr.2 ≠ 0 then (if fr.1 then andNot flag fr.2 else flag ||| fr.2) else flag
  | none => flag

/-- Whether a token lands in the data list: unrecognized, or recognized
with zero flag value. -/
def isDataOpt (o : String) : Bool :=
  match flagsTable o with
  | some fr => fr.2 == 0
  | none => true

/-- The flag and data accumulations of the parseMountOptions loop are
independent: the flags are a fold of `applyOpt` and the data list is a
filter by `isDataOpt`. -/
theorem parseMountOptionsAux_eq (opts : List String) :
    ∀ flag data, parseMountOptionsAux flag data opts
      = (opts.foldl applyOpt flag, data ++ opts.filter isDataOpt) := by
  induction opts with
  | nil => intro flag data; simp [parseMountOptionsAux]
  | cons o rest ih =>
    intro flag data
    simp only [parseMountOptionsAux]
    cases h : flagsTable o with
    | none => simp [ih, applyOpt, isDataOpt, h]
    | some fr =>
      by_cases h2 : fr.2 = 0
      · simp [h2, ih, applyOpt, isDataOpt, h]
      · by_cases h1 : fr.1 = true
        · simp [h2, h1, ih, applyOpt, isDataOpt, h]
        · simp [h2, h1, ih, applyOpt, isDataOpt, h]

/-- A netlink link descriptor as built by prepareProcess: either a veth
pair (LinkAttrs name and namespace, plus peer name) or a generic link of
some kind. The namespace attribute is `some pid` for netlink.NsPid pid
and `none` for the nil (root namespace) case. -/
inductive Link
  | veth (name : String) (ns : Option Int) (peer : String)
  | generic (name : String) (ns : Option Int) (kind : String)
deriving Repr, DecidableEq

/-- One observable call issued by the embedded functions: filesystem
syscalls, mount table operations and netlink operations, with the
arguments the Go code passes. -/
inductive Call
  | mkdirAll (path : String) (mode : Nat)
  | mkdirOne (path : String) (mode : Nat)
  | mount (source target fstype : String) (flags : Nat) (data : String)
  | unmount (target : String) (flags : Nat)
  | removeAll (path : String)
  | createFile (path : String)
  | closeFile (path : String)
  | stat (path : String)
  | linkAdd (link : Link)
  | linkByName (name : String)
  | linkSetNsPid (link : Link) (pid : Int)
deriving Repr, DecidableEq

/-- Outcome of an os.Stat call: success, the not-exist error recognized
by os.IsNotExist, or some other error. -/
inductive StatResult
  | ok
  | notExist
  | otherErr (e : String)
deriving Repr, DecidableEq

/-- Errors returned by the embedded functions, one constructor per
distinct fmt.Errorf (or raw error return) in the Go source, carrying the
values interpolated there. -/
inductive Err
  | mkdirDest (dest : String) (e : String)
  | mountFailed (source : String) (e : String)
  | mkdirFailed (dir : String) (e : String)
  | statErr (e : String)
  | raw (e : String)
  | bindMkdir (dir : String) (e : String)
  | bindCreate (path : String) (e : String)
  | bindMount (ns : String) (path : String) (e : String)
  | ifaceNoName
  | vethNoPeer (name : String)
  | linkAddFailed (name : String) (kind : String) (e : String)
  | linkNotFound (name : String) (e : String)
  | moveFailed (name : String) (e : String)
deriving Repr, DecidableEq

/-- The environment fixes the outcome of every call the code can issue:
`none` means success and `some e` the error message, except for stat
(which distinguishes not-exist from other errors) and linkByName (which
returns the found link on success). -/
structure Env where
  mkdirAll : String → Nat → Option String
  mkdirOne : String → Nat → Option String
  mount : String → String → String → Nat → String → Option String
  unmount : String → Nat → Option String
  removeAll : String → Option String
  createFile : String → Option String
  closeFile : String → Option String
  stat : String → StatResult
  linkAdd : Link → Option String
  linkByName : String → Except String Link
  linkSetNsPid : Link → Int → Option String

/-- filepath.Join of a clean directory path and a relative name. -/
def joinPath (a b : String) : String := a ++ "/" ++ b

/-- filepath.Dir of a clean path: everything before the final slash, or
"." when there is no slash. -/
def dirOf (p : String) : String :=
  let parts := p.splitOn "/"
  match parts with
  | [] => "."
  | [_] => "."
  | _ => String.intercalate "/" (parts.dropLast)

/-- The `/proc/<pid>/ns/<kind>` source path of a namespace bind. -/
def procNsPath (pid : Int) (ns : String) : String :=
  "/proc/" ++ toString pid ++ "/ns/" ++ ns

/-- The mounts loop of prepareFilesystem: for each mount, MkdirAll the
destination (0755), translate the options, mount; first failure aborts
with the error message of the Go fmt.Errorf. -/
def mountsLoop (env : Env) : List MountSpec → List Call × Except Err Unit
  | [] => ([], .ok ())
  | m :: rest =>
    match env.mkdirAll m.destination 0o755 with
    | some e => ([Call.mkdirAll m.destination 0o755], .error (.mkdirDest m.destination e))
    | none =>
      let od := parseMountOptions m.options
      match env.mount m.source m.destination m.type od.1 od.2 with
      | some e =>
        ([Call.mkdirAll m.destination 0o755, Call.mount m.source m.destination m.type od.1 od.2],
         .error (.mountFailed m.source e))
      | none =>
        let r := mountsLoop env rest
        (Call.mkdirAll m.destination 0o755 :: Call.mount m.source m.destination m.type od.1 od.2 :: r.1,
         r.2)

/-- The mkdir loop of prepareFilesystem: MkdirAll each directory (0755),
aborting on the first failure. -/
def mkdirLoop (env : Env) : List String → List Call × Except Err Unit
  | [] => ([], .ok ())
  | d :: rest =>
    match env.mkdirAll d 0o755 with
    | some e => ([Call.mkdirAll d 0o755], .error (.mkdirFailed d e))
    | none =>
      let r := mkdirLoop env rest
      (Call.mkdirAll d 0o755 :: r.1, r.2)

/-- prepareRO: bind-mount rootfs onto itself so it is a mount point. -/
def prepareRO (env : Env) (path : String) : List Call × Except Err Unit :=
  let rootfs := joinPath path "rootfs"
  match env.mount rootfs rootfs "" MS_BIND "" with
  | some e => ([Call.mount rootfs rootfs "" MS_BIND ""], .error (.raw e))
  | none => ([Call.mount rootfs rootfs "" MS_BIND ""], .ok ())

/-- prepareRW: mount a tmpfs at tmp (size=10%), remount it private,
create tmp/upper and tmp/work (0755), and mount the overlay at rootfs
with lowerdir, upperdir, workdir data; first failure aborts. -/
def prepareRW (env : Env) (path : String) : List Call × Except Err Unit :=
  let tmp := joinPath path "tmp"
  match env.mount "tmpfs" tmp "tmpfs" 0 "size=10%" with
  | some e => ([Call.mount "tmpfs" tmp "tmpfs" 0 "size=10%"], .error (.raw e))
  | none =>
  match env.mount "" tmp "" (MS_REMOUNT ||| MS_PRIVATE) "" with
  | some e =>
    ([Call.mount "tmpfs" tmp "tmpfs" 0 "size=10%",
      Call.mount "" tmp "" (MS_REMOUNT ||| MS_PRIVATE) ""], .error (.raw e))
  | none =>
  let upper := joinPath tmp "upper"
  match env.mkdirOne upper 0o755 with
  | some e =>
    ([Call.mount "tmpfs" tmp "tmpfs" 0 "size=10%",
      Call.mount "" tmp "" (MS_REMOUNT ||| MS_PRIVATE) "",
      Call.mkdirOne upper 0o755], .error (.raw e))
  | none =>
  let work := joinPath tmp "work"
  match env.mkdirOne work 0o755 with
  | some e =>
    ([Call.mount "tmpfs" tmp "tmpfs" 0 "size=10%",
      Call.mount "" tmp "" (MS_REMOUNT ||| MS_PRIVATE) "",
      Call.mkdirOne upper 0o755, Call.mkdirOne work 0o755], .error (.raw e))
  | none =>
  let lower := joinPath path "lower"
  let rootfs := joinPath path "rootfs"
  let opt := "lowerdir=" ++ lower ++ ",upperdir=" ++ upper ++ ",workdir=" ++ work
  match env.mount "overlay" rootfs "overlay" 0 opt with
  | some e =>
    ([Call.mount "tmpfs" tmp "tmpfs" 0 "size=10%",
      Call.mount "" tmp "" (MS_REMOUNT ||| MS_PRIVATE) "",
      Call.mkdirOne upper 0o755, Call.mkdirOne work 0o755,
      Call.mount "overlay" rootfs "overlay" 0 opt], .error (.raw e))
  | none =>
    ([Call.mount "tmpfs" tmp "tmpfs" 0 "size=10%",
      Call.mount "" tmp "" (MS_REMOUNT ||| MS_PRIVATE) "",
      Call.mkdirOne upper 0o755, Call.mkdirOne work 0o755,
      Call.mount "overlay" rootfs "overlay" 0 opt], .ok ())

/-- prepareFilesystem: runs the mounts loop, the mkdir loop, then probes
path/lower with os.Stat: not-exist selects prepareRO, success selects
prepareRW, any other stat error is returned as is. -/
def prepareFilesystem (env : Env) (path : String) (runtime : Runtime) : List Call × Except Err Unit :=
  match mountsLoop env runtime.mounts with
  | (t1, .error e) => (t1, .error e)
  | (t1, .ok _) =>
    match mkdirLoop env runtime.mkdir with
    | (t2, .error e) => (t1 ++ t2, .error e)
    | (t2, .ok _) =>
      let lower := joinPath path "lower"
      match env.stat lower with
      | .notExist =>
        let r := prepareRO env path
        (t1 ++ t2 ++ Call.stat lower :: r.1, r.2)
      | .otherErr e => (t1 ++ t2 ++ [Call.stat lower], .error (.statErr e))
      | .ok =>
        let r := prepareRW env path
        (t1 ++ t2 ++ Call.stat lower :: r.1, r.2)

/-- cleanupRO: unmount the rootfs bind mount, discarding the error. -/
def cleanupRO (path : String) : List Call :=
  [Call.unmount (joinPath path "rootfs") 0]

/-- cleanupRW: remove rootfs recursively, unmount it, remove tmp
recursively, unmount it; every error is discarded and every step is
attempted. -/
def cleanupRW (path : String) : List Call :=
  let rootfs := joinPath path "rootfs"
  let tmp := joinPath path "tmp"
  [Call.removeAll rootfs, Call.unmount rootfs 0, Call.removeAll tmp, Call.unmount tmp 0]

/-- cleanup: probe path/lower with os.Stat; on any error (not-exist or
other) run the read-only teardown, on success the writable teardown.
It returns no error. -/
def cleanup (env : Env) (path : String) : List Call :=
  let lower := joinPath path "lower"
  Call.stat lower ::
    match env.stat lower with
    | .ok => cleanupRW path
    | _ => cleanupRO path

/-- bindNS: an empty path is an immediate no-op; otherwise MkdirAll the
parent directory (0755), create the file, close it, then bind-mount
/proc/pid/ns/kind onto it, aborting with the corresponding wrapped
error on any failure (the close error is returned unwrapped). -/
def bindNS (env : Env) (ns : String) (path : String) (pid : Int) : List Call × Except Err Unit :=
  if path = "" then ([], .ok ())
  else
    let dir := dirOf path
    match env.mkdirAll dir 0o755 with
    | some e => ([Call.mkdirAll dir 0o755], .error (.bindMkdir dir e))
    | none =>
    match env.createFile path with
    | some e => ([Call.mkdirAll dir 0o755, Call.createFile path], .error (.bindCreate path e))
    | none =>
    match env.closeFile path with
    | some e =>
      ([Call.mkdirAll dir 0o755, Call.createFile path, Call.closeFile path], .error (.raw e))
    | none =>
    let src := procNsPath pid ns
    match env.mount src path "" MS_BIND "" with
    | some e =>
      ([Call.mkdirAll dir 0o755, Call.createFile path, Call.closeFile path,
        Call.mount src path "" MS_BIND ""], .error (.bindMount ns path e))
    | none =>
      ([Call.mkdirAll dir 0o755, Call.createFile path, Call.closeFile path,
        Call.mount src path "" MS_BIND ""], .ok ())

/-- The trailing move of one interface iteration: when the move flag is
set, LinkSetNsPid the link into the pid's namespace. -/
def moveStep (env : Env) (pid : Int) (name : String) (link : Link) (move : Bool) :
    List Call × Except Err Unit :=
  if move then
    match env.linkSetNsPid link pid with
    | some e => ([Call.linkSetNsPid link pid], .error (.moveFailed name e))
    | none => ([Call.linkSetNsPid link pid], .ok ())
  else ([], .ok ())

/-- One iteration of the interfaces loop of prepareProcess: require a
name; treat a non-empty peer with empty add as add="veth"; create in the
root namespace and move afterwards when createInRoot is set or a veth is
being made; LinkAdd a new link or LinkByName an existing one (which is
then always moved); finally move when flagged. -/
def ifaceStep (env : Env) (pid : Int) (iface0 : Iface) : List Call × Except Err Unit :=
  if iface0.name = "" then ([], .error .ifaceNoName)
  else
    let iface := if iface0.peer ≠ "" ∧ iface0.add = "" then { iface0 with add := "veth" } else iface0
    let ns : Option Int := if iface.createInRoot ∨ iface.add = "veth" then none else some pid
    let move : Bool := decide (iface.createInRoot ∨ iface.add = "veth")
    if iface.add ≠ "" then
      if iface.add = "veth" then
        if iface.peer = "" then ([], .error (.vethNoPeer iface.name))
        else
          let link := Link.veth iface.name ns iface.peer
          match env.linkAdd link with
          | some e => ([Call.linkAdd link], .error (.linkAddFailed iface.name iface.add e))
          | none =>
            let r := moveStep env pid iface.name link move
            (Call.linkAdd link :: r.1, r.2)
      else
        let link := Link.generic iface.name ns iface.add
        match env.linkAdd link with
        | some e => ([Call.linkAdd link], .error (.linkAddFailed iface.name iface.add e))
        | none =>
          let r := moveStep env pid iface.name link move
          (Call.linkAdd link :: r.1, r.2)
    else
      match env.linkByName iface.name with
      | .error e => ([Call.linkByName iface.name], .error (.linkNotFound iface.name e))
      | .ok link =>
        let r := moveStep env pid iface.name link true
        (Call.linkByName iface.name :: r.1, r.2)

/-- The interfaces loop of prepareProcess: process each interface in
declared order, aborting on the first failure. -/
def ifaceLoop (env : Env) (pid : Int) : List Iface → List Call × Except Err Unit
  | [] => ([], .ok ())
  | i :: rest =>
    match ifaceStep env pid i with
    | (t, .error e) => (t, .error e)
    | (t, .ok _) =>
      let r := ifaceLoop env pid rest
      (t ++ r.1, r.2)

/-- The fixed bind list of prepareProcess: namespace kind and configured
path pairs, in the order written in the source. -/
def bindsList (r : Runtime) : List (String × String) :=
  [("cgroup", r.bindNS.cgroup), ("ipc", r.bindNS.ipc), ("mnt", r.bindNS.mnt),
   ("net", r.bindNS.net), ("pid", r.bindNS.pid), ("user", r.bindNS.user),
   ("uts", r.bindNS.uts)]

/-- The binds loop of prepareProcess: bindNS each pair in order, aborting
on the first failure. -/
def bindsLoop (env : Env) (pid : Int) : List (String × String) → List Call × Except Err Unit
  | [] => ([], .ok ())
  | b :: rest =>
    match bindNS env b.1 b.2 pid with
    | (t, .error e) => (t, .error e)
    | (t, .ok _) =>
      let r := bindsLoop env pid rest
      (t ++ r.1, r.2)

/-- prepareProcess: run the interfaces loop, then (only if it succeeded)
the namespace binds loop. -/
def prepareProcess (env : Env) (pid : Int) (runtime : Runtime) : List Call × Except Err Unit :=
  match ifaceLoop env pid runtime.interfaces with
  | (t, .error e) => (t, .error e)
  | (t, .ok _) =>
    let r := bindsLoop env pid (bindsList runtime)
    (t ++ r.1, r.2)

/-- Whether a call is a netlink operation (as opposed to a filesystem or
mount table operation). -/
def Call.isNetlink : Call → Bool
  | .linkAdd _ => true
  | .linkByName _ => true
  | .linkSetNsPid _ _ => true
  | _ => false

/-- Environment in which every call succeeds and path/lower exists. -/
def envOk : Env :=
  { mkdirAll := fun _ _ => none, mkdirOne := fun _ _ => none,
    mount := fun _ _ _ _ _ => none, unmount := fun _ _ => none,
    removeAll := fun _ => none, createFile := fun _ => none,
    closeFile := fun _ => none, stat := fun _ => .ok,
    linkAdd := fun _ => none,
    linkByName := fun n => .ok (Link.generic n none ""),
    linkSetNsPid := fun _ _ => none }

/-- Environment in which every call succeeds but no path exists (stat
always reports not-exist). -/
def envNoLower : Env :=
  { envOk with stat := fun _ => .notExist }

/-- Environment in which stat fails with an error other than not-exist
(for example a permission error) while everything else succeeds. -/
def envStatErr : Env :=
  { envOk with stat := fun _ => .otherErr "permission denied" }

/-- Environment in which every mount call fails while everything else
succeeds, and no path exists. -/
def envMountFails : Env :=
  { envNoLower with mount := fun _ _ _ _ _ => some "EPERM" }

/-- The data list accumulated by parseMountOptions before joining. -/
def parseDataList (options : List String) : List String :=
  (parseMountOptionsAux 0 [] options).2

/-- The defaults token leaves the flag accumulator unchanged. -/
theorem applyOpt_defaults (flag : Nat) : applyOpt flag "defaults" = flag := rfl

/-- Dropping defaults tokens does not change the flag fold. -/
theorem foldl_applyOpt_filter_defaults (opts : List String) :
    ∀ flag, List.foldl applyOpt flag (opts.filter (fun o => o != "defaults"))
      = List.foldl applyOpt flag opts := by
  induction opts with
  | nil => intro flag; rfl
  | cons o rest ih =>
    intro flag
    by_cases h : o = "defaults"
    · subst h
      simp only [List.filter_cons, List.foldl_cons, applyOpt_defaults, bne_self_eq_false,
        Bool.false_eq_true, if_false]
      exact ih flag
    · simp only [List.filter_cons, List.foldl_cons, bne_iff_ne, ne_eq, h, not_false_iff,
        if_true]
      exact ih (applyOpt flag o)

/-- Filtering by isDataOpt keeps every defaults token. -/
theorem count_defaults_filterData (opts : List String) :
    (opts.filter isDataOpt).count "defaults" = opts.count "defaults" := by
  induction opts with
  | nil => rfl
  | cons o rest ih =>
    by_cases h : o = "defaults"
    · subst h
      simp [List.filter_cons, isDataOpt, flagsTable, List.count_cons, ih]
    · by_cases hd : isDataOpt o = true
      · simp [List.filter_cons, hd, List.count_cons, h, ih]
      · simp [List.filter_cons, hd, List.count_cons, h, ih]

/-- Every defaults token of the input survives into the data list. -/
theorem count_defaults_parseDataList (opts : List String) :
    (parseDataList opts).count "defaults" = opts.count "defaults" := by
  unfold parseDataList
  rw [parseMountOptionsAux_eq opts 0 []]
  simpa using count_defaults_filterData opts

/-- C2 counterexample: on the input list containing only defaults, the
translation differs from the translation of the defaults-free list, and
defaults appears in the returned data string. -/
theorem C2_counterexample :
    parseMountOptions ["defaults"]
      ≠ parseMountOptions (List.filter (fun o => o != "defaults") ["defaults"])
    ∧ (parseMountOptions ["defaults"]).2 = "defaults" := by
  constructor
  · intro h
    have h2 : (parseMountOptions ["defaults"]).2
        = (parseMountOptions (List.filter (fun o => o != "defaults") ["defaults"])).2 := by
      rw [h]
    have h3 : "defaults" = "" := h2
    simp at h3
  · rfl

/-- C2 (amended): the defaults token is a no-op for the flag bitset
(translating with every defaults occurrence removed yields the same
flags), but it is appended verbatim to the data list, so it does appear
in the returned data string. -/
theorem C2_defaults_flags_noop (opts : List String) :
    (parseMountOptions opts).1
        = (parseMountOptions (opts.filter (fun o => o != "defaults"))).1
    ∧ (parseDataList opts).count "defaults" = opts.count "defaults" := by
  constructor
  · have h1 := parseMountOptionsAux_eq opts 0 []
    have h2 := parseMountOptionsAux_eq (opts.filter (fun o => o != "defaults")) 0 []
    simp only [parseMountOptions, h1, h2]
    exact (foldl_applyOpt_filter_defaults opts 0).symm
  · exact count_defaults_parseDataList opts

/-- C9: the translator processes tokens strictly in input order and the
last occurrence wins per bit: ro,rw leaves RDONLY cleared while rw,ro
leaves RDONLY set. -/
theorem C9_order_matters :
    parseMountOptions ["ro", "rw"] = (0, "")
    ∧ parseMountOptions ["rw", "ro"] = (MS_RDONLY, "")
    ∧ (parseMountOptions ["ro", "rw"]).1 &&& MS_RDONLY = 0
    ∧ (parseMountOptions ["rw", "ro"]).1 &&& MS_RDONLY = MS_RDONLY := by
  refine ⟨?_, ?_, ?_, ?_⟩ <;> decide

/-- prepareRO issues the self-bind mount of rootfs whatever its
outcome. -/
theorem prepareRO_trace (env : Env) (path : String) :
    (prepareRO env path).1
      = [Call.mount (joinPath path "rootfs") (joinPath path "rootfs") "" MS_BIND ""] := by
  simp only [prepareRO]
  cases h : env.mount (joinPath path "rootfs") (joinPath path "rootfs") "" MS_BIND "" <;>
    simp [h]

/-- When the mounts loop fails, prepareFilesystem stops there. -/
theorem prepareFilesystem_mountsErr (env : Env) (path : String) (runtime : Runtime)
    (e : Err) (h1 : (mountsLoop env runtime.mounts).2 = .error e) :
    prepareFilesystem env path runtime = ((mountsLoop env runtime.mounts).1, .error e) := by
  rcases hm : mountsLoop env runtime.mounts with ⟨t1, r1⟩
  rw [hm] at h1
  simp only at h1
  subst h1
  simp [prepareFilesystem, hm]

/-- When the mounts and mkdir loops succeed and path/lower does not
exist, prepareFilesystem runs prepareRO after the probe. -/
theorem prepareFilesystem_notExist (env : Env) (path : String) (runtime : Runtime)
    (h1 : (mountsLoop env runtime.mounts).2 = .ok ())
    (h2 : (mkdirLoop env runtime.mkdir).2 = .ok ())
    (h3 : env.stat (joinPath path "lower") = .notExist) :
    prepareFilesystem env path runtime
      = ((mountsLoop env runtime.mounts).1 ++ (mkdirLoop env runtime.mkdir).1
          ++ Call.stat (joinPath path "lower") :: (prepareRO env path).1,
         (prepareRO env path).2) := by
  rcases hm : mountsLoop env runtime.mounts with ⟨t1, r1⟩
  rcases hk : mkdirLoop env runtime.mkdir with ⟨t2, r2⟩
  rw [hm] at h1
  rw [hk] at h2
  simp only at h1 h2
  subst h1
  subst h2
  simp [prepareFilesystem, hm, hk, h3]

/-- When the mounts and mkdir loops succeed and path/lower exists,
prepareFilesystem runs prepareRW after the probe. -/
theorem prepareFilesystem_statOk (env : Env) (path : String) (runtime : Runtime)
    (h1 : (mountsLoop env runtime.mounts).2 = .ok ())
    (h2 : (mkdirLoop env runtime.mkdir).2 = .ok ())
    (h3 : env.stat (joinPath path "lower") = .ok) :
    prepareFilesystem env path runtime
      = ((mountsLoop env runtime.mounts).1 ++ (mkdirLoop env runtime.mkdir).1
          ++ Call.stat (joinPath path "lower") :: (prepareRW env path).1,
         (prepareRW env path).2) := by
  rcases hm : mountsLoop env runtime.mounts with ⟨t1, r1⟩
  rcases hk : mkdirLoop env runtime.mkdir with ⟨t2, r2⟩
  rw [hm] at h1
  rw [hk] at h2
  simp only at h1 h2
  subst h1
  subst h2
  simp [prepareFilesystem, hm, hk, h3]

/-- When the mounts and mkdir loops succeed and the probe of path/lower
fails with an error other than not-exist, prepareFilesystem returns that
error and runs neither strategy. -/
theorem prepareFilesystem_statErr (env : Env) (path : String) (runtime : Runtime)
    (e : String)
    (h1 : (mountsLoop env runtime.mounts).2 = .ok ())
    (h2 : (mkdirLoop env runtime.mkdir).2 = .ok ())
    (h3 : env.stat (joinPath path "lower") = .otherErr e) :
    prepareFilesystem env path runtime
      = ((mountsLoop env runtime.mounts).1 ++ (mkdirLoop env runtime.mkdir).1
          ++ [Call.stat (joinPath path "lower")], .error (.statErr e)) := by
  rcases hm : mountsLoop env runtime.mounts with ⟨t1, r1⟩
  rcases hk : mkdirLoop env runtime.mkdir with ⟨t2, r2⟩
  rw [hm] at h1
  rw [hk] at h2
  simp only at h1 h2
  subst h1
  subst h2
  simp [prepareFilesystem, hm, hk, h3]

/-- C1 counterexample: in an environment where the stat of lower fails
with an error other than not-exist, cleanup performs the read-only
teardown while the probe in prepare selects no strategy at all (it
returns the stat error), so the two probes do not agree as claimed. -/
theorem C1_counterexample :
    cleanup envStatErr "/c" = Call.stat (joinPath "/c" "lower") :: cleanupRO "/c"
    ∧ envStatErr.stat (joinPath "/c" "lower") ≠ StatResult.notExist
    ∧ prepareFilesystem envStatErr "/c" emptyRuntime
        = ([Call.stat (joinPath "/c" "lower")], .error (.statErr "permission denied")) := by
  refine ⟨rfl, ?_, rfl⟩
  intro h
  simp [envStatErr, envOk] at h

/-- C1 (amended): cleanup re-probes path/lower and agrees with prepare's
probe on the two ordinary outcomes — not-exist selects the read-only
strategy in both, success selects the writable strategy in both — but on
any other stat error cleanup performs the read-only teardown whereas
prepare returns the error without invoking either strategy. -/
theorem C1_probe_agreement (env : Env) (path : String) :
    (env.stat (joinPath path "lower") = .notExist →
       cleanup env path = Call.stat (joinPath path "lower") :: cleanupRO path
       ∧ prepareFilesystem env path emptyRuntime
           = (Call.stat (joinPath path "lower") :: (prepareRO env path).1,
              (prepareRO env path).2))
    ∧ (env.stat (joinPath path "lower") = .ok →
       cleanup env path = Call.stat (joinPath path "lower") :: cleanupRW path
       ∧ prepareFilesystem env path emptyRuntime
           = (Call.stat (joinPath path "lower") :: (prepareRW env path).1,
              (prepareRW env path).2))
    ∧ (∀ e, env.stat (joinPath path "lower") = .otherErr e →
       cleanup env path = Call.stat (joinPath path "lower") :: cleanupRO path
       ∧ prepareFilesystem env path emptyRuntime
           = ([Call.stat (joinPath path "lower")], .error (.statErr e))) := by
  refine ⟨fun h => ⟨?_, ?_⟩, fun h => ⟨?_, ?_⟩, fun e h => ⟨?_, ?_⟩⟩
  · simp [cleanup, h]
  · simpa using prepareFilesystem_notExist env path emptyRuntime rfl rfl h
  · simp [cleanup, h]
  · simpa using prepareFilesystem_statOk env path emptyRuntime rfl rfl h
  · simp [cleanup, h]
  · simpa using prepareFilesystem_statErr env path emptyRuntime e rfl rfl h

/-- C1 witness: at an environment whose stat succeeds, cleanup performs
the writable teardown and prepare runs the writable strategy. -/
theorem C1_witness :
    cleanup envOk "/c" = Call.stat (joinPath "/c" "lower") :: cleanupRW "/c"
    ∧ prepareFilesystem envOk "/c" emptyRuntime
        = (Call.stat (joinPath "/c" "lower") :: (prepareRW envOk "/c").1,
           (prepareRW envOk "/c").2) :=
  (C1_probe_agreement envOk "/c").2.1 rfl

/-- C5: cleanup surfaces no error (its result type carries none); on a
probe failure it issues exactly the stat and one unmount of rootfs, on a
probe success exactly the stat, the recursive removal and unmount of
rootfs and the recursive removal and unmount of tmp, in that order; and
its behaviour depends only on the probe, not on the outcome of any
teardown step, so every step is attempted regardless of failures. -/
theorem C5_cleanup_calls (env : Env) (path : String) :
    (env.stat (joinPath path "lower") ≠ .ok →
       cleanup env path
         = [Call.stat (joinPath path "lower"), Call.unmount (joinPath path "rootfs") 0])
    ∧ (env.stat (joinPath path "lower") = .ok →
       cleanup env path
         = [Call.stat (joinPath path "lower"),
            Call.removeAll (joinPath path "rootfs"), Call.unmount (joinPath path "rootfs") 0,
            Call.removeAll (joinPath path "tmp"), Call.unmount (joinPath path "tmp") 0])
    ∧ (∀ env2 : Env, env2.stat (joinPath path "lower") = env.stat (joinPath path "lower") →
       cleanup env2 path = cleanup env path) := by
  refine ⟨fun h => ?_, fun h => ?_, fun env2 h => ?_⟩
  · cases hs : env.stat (joinPath path "lower") with
    | ok => exact absurd hs h
    | notExist => simp [cleanup, hs, cleanupRO]
    | otherErr e => simp [cleanup, hs, cleanupRO]
  · simp [cleanup, h, cleanupRW]
  · cases hs : env.stat (joinPath path "lower") with
    | ok => rw [hs] at h; simp [cleanup, h, hs]
    | notExist => rw [hs] at h; simp [cleanup, h, hs]
    | otherErr e => rw [hs] at h; simp [cleanup, h, hs]

/-- C5 witness: on a not-exist probe outcome cleanup issues exactly the
stat and the single rootfs unmount. -/
theorem C5_witness :
    cleanup envNoLower "/c"
      = [Call.stat (joinPath "/c" "lower"), Call.unmount (joinPath "/c" "rootfs") 0] :=
  (C5_cleanup_calls envNoLower "/c").1 (by intro h; simp [envNoLower, envOk] at h)

/-- C3: when the probe of path/lower succeeds (and the mounts and mkdir
loops passed), prepare runs the writable strategy, whose calls are
exactly, in order: mount tmpfs at tmp with data size=10%, remount tmp
with MS_REMOUNT|MS_PRIVATE, create tmp/upper then tmp/work with mode
0755, and mount overlay at rootfs with data
lowerdir=lower,upperdir=tmp/upper,workdir=tmp/work; the first failing
step aborts the rest and its error is returned. -/
theorem C3_writable_sequence (env : Env) (path : String) (runtime : Runtime) :
    ((mountsLoop env runtime.mounts).2 = .ok () →
     (mkdirLoop env runtime.mkdir).2 = .ok () →
     env.stat (joinPath path "lower") = .ok →
       prepareFilesystem env path runtime
         = ((mountsLoop env runtime.mounts).1 ++ (mkdirLoop env runtime.mkdir).1
             ++ Call.stat (joinPath path "lower") :: (prepareRW env path).1,
            (prepareRW env path).2))
    ∧ (∀ e, env.mount "tmpfs" (joinPath path "tmp") "tmpfs" 0 "size=10%" = some e →
       prepareRW env path
         = ([Call.mount "tmpfs" (joinPath path "tmp") "tmpfs" 0 "size=10%"],
            .error (.raw e)))
    ∧ (∀ e, env.mount "tmpfs" (joinPath path "tmp") "tmpfs" 0 "size=10%" = none →
       env.mount "" (joinPath path "tmp") "" (MS_REMOUNT ||| MS_PRIVATE) "" = some e →
       prepareRW env path
         = ([Call.mount "tmpfs" (joinPath path "tmp") "tmpfs" 0 "size=10%",
             Call.mount "" (joinPath path "tmp") "" (MS_REMOUNT ||| MS_PRIVATE) ""],
            .error (.raw e)))
    ∧ (∀ e, env.mount "tmpfs" (joinPath path "tmp") "tmpfs" 0 "size=10%" = none →
       env.mount "" (joinPath path "tmp") "" (MS_REMOUNT ||| MS_PRIVATE) "" = none →
       env.mkdirOne (joinPath (joinPath path "tmp") "upper") 0o755 = some e →
       prepareRW env path
         = ([Call.mount "tmpfs" (joinPath path "tmp") "tmpfs" 0 "size=10%",
             Call.mount "" (joinPath path "tmp") "" (MS_REMOUNT ||| MS_PRIVATE) "",
             Call.mkdirOne (joinPath (joinPath path "tmp") "upper") 0o755],
            .error (.raw e)))
    ∧ (∀ e, env.mount "tmpfs" (joinPath path "tmp") "tmpfs" 0 "size=10%" = none →
       env.mount "" (joinPath path "tmp") "" (MS_REMOUNT ||| MS_PRIVATE) "" = none →
       env.mkdirOne (joinPath (joinPath path "tmp") "upper") 0o755 = none →
       env.mkdirOne (joinPath (joinPath path "tmp") "work") 0o755 = some e →
       prepareRW env path
         = ([Call.mount "tmpfs" (joinPath path "tmp") "tmpfs" 0 "size=10%",
             Call.mount "" (joinPath path "tmp") "" (MS_REMOUNT ||| MS_PRIVATE) "",
             Call.mkdirOne (joinPath (joinPath path "tmp") "upper") 0o755,
             Call.mkdirOne (joinPath (joinPath path "tmp") "work") 0o755],
            .error (.raw e)))
    ∧ (∀ e, env.mount "tmpfs" (joinPath path "tmp") "tmpfs" 0 "size=10%" = none →
       env.mount "" (joinPath path "tmp") "" (MS_REMOUNT ||| MS_PRIVATE) "" = none →
       env.mkdirOne (joinPath (joinPath path "tmp") "upper") 0o755 = none →
       env.mkdirOne (joinPath (joinPath path "tmp") "work") 0o755 = none →
       env.mount "overlay" (joinPath path "rootfs") "overlay" 0
           ("lowerdir=" ++ joinPath path "lower" ++ ",upperdir="
             ++ joinPath (joinPath path "tmp") "upper" ++ ",workdir="
             ++ joinPath (joinPath path "tmp") "work") = some e →
       prepareRW env path
         = ([Call.mount "tmpfs" (joinPath path "tmp") "tmpfs" 0 "size=10%",
             Call.mount "" (joinPath path "tmp") "" (MS_REMOUNT ||| MS_PRIVATE) "",
             Call.mkdirOne (joinPath (joinPath path "tmp") "upper") 0o755,
             Call.mkdirOne (joinPath (joinPath path "tmp") "work") 0o755,
             Call.mount "overlay" (joinPath path "rootfs") "overlay" 0
               ("lowerdir=" ++ joinPath path "lower" ++ ",upperdir="
                 ++ joinPath (joinPath path "tmp") "upper" ++ ",workdir="
                 ++ joinPath (joinPath path "tmp") "work")],
            .error (.raw e)))
    ∧ (env.mount "tmpfs" (joinPath path "tmp") "tmpfs" 0 "size=10%" = none →
       env.mount "" (joinPath path "tmp") "" (MS_REMOUNT ||| MS_PRIVATE) "" = none →
       env.mkdirOne (joinPath (joinPath path "tmp") "upper") 0o755 = none →
       env.mkdirOne (joinPath (joinPath path "tmp") "work") 0o755 = none →
       env.mount "overlay" (joinPath path "rootfs") "overlay" 0
           ("lowerdir=" ++ joinPath path "lower" ++ ",upperdir="
             ++ joinPath (joinPath path "tmp") "upper" ++ ",workdir="
             ++ joinPath (joinPath path "tmp") "work") = none →
       prepareRW env path
         = ([Call.mount "tmpfs" (joinPath path "tmp") "tmpfs" 0 "size=10%",
             Call.mount "" (joinPath path "tmp") "" (MS_REMOUNT ||| MS_PRIVATE) "",
             Call.mkdirOne (joinPath (joinPath path "tmp") "upper") 0o755,
             Call.mkdirOne (joinPath (joinPath path "tmp") "work") 0o755,
             Call.mount "overlay" (joinPath path "rootfs") "overlay" 0
               ("lowerdir=" ++ joinPath path "lower" ++ ",upperdir="
                 ++ joinPath (joinPath path "tmp") "upper" ++ ",workdir="
                 ++ joinPath (joinPath path "tmp") "work")],
            .ok ()))  := by
  refine ⟨fun h1 h2 h3 => prepareFilesystem_statOk env path runtime h1 h2 h3,
    fun e hm1 => ?_, fun e hm1 hm2 => ?_, fun e hm1 hm2 hu => ?_,
    fun e hm1 hm2 hu hw => ?_, fun e hm1 hm2 hu hw ho => ?_,
    fun hm1 hm2 hu hw ho => ?_⟩
  · simp [prepareRW, hm1]
  · simp [prepareRW, hm1, hm2]
  · simp [prepareRW, hm1, hm2, hu]
  · simp [prepareRW, hm1, hm2, hu, hw]
  · simp [prepareRW, hm1, hm2, hu, hw, ho]
  · simp [prepareRW, hm1, hm2, hu, hw, ho]

/-- C3 witness: in the all-success environment, prepareRW issues exactly
the five writable-strategy calls and returns success. -/
theorem C3_witness :
    prepareRW envOk "/c"
      = ([Call.mount "tmpfs" (joinPath "/c" "tmp") "tmpfs" 0 "size=10%",
          Call.mount "" (joinPath "/c" "tmp") "" (MS_REMOUNT ||| MS_PRIVATE) "",
          Call.mkdirOne (joinPath (joinPath "/c" "tmp") "upper") 0o755,
          Call.mkdirOne (joinPath (joinPath "/c" "tmp") "work") 0o755,
          Call.mount "overlay" (joinPath "/c" "rootfs") "overlay" 0
            ("lowerdir=" ++ joinPath "/c" "lower" ++ ",upperdir="
              ++ joinPath (joinPath "/c" "tmp") "upper" ++ ",workdir="
              ++ joinPath (joinPath "/c" "tmp") "work")],
         .ok ()) :=
  (C3_writable_sequence envOk "/c" emptyRuntime).2.2.2.2.2.2 rfl rfl rfl rfl rfl

/-- C4: when the probe of path/lower reports not-exist (and the mounts
and mkdir loops passed), the only calls prepare adds after the probe are
the single self-bind mount of rootfs with MS_BIND — in particular no
call touches a tmp path. -/
theorem C4_readonly_single_mount (env : Env) (path : String) (runtime : Runtime)
    (h1 : (mountsLoop env runtime.mounts).2 = .ok ())
    (h2 : (mkdirLoop env runtime.mkdir).2 = .ok ())
    (h3 : env.stat (joinPath path "lower") = .notExist) :
    prepareFilesystem env path runtime
      = ((mountsLoop env runtime.mounts).1 ++ (mkdirLoop env runtime.mkdir).1
          ++ [Call.stat (joinPath path "lower"),
              Call.mount (joinPath path "rootfs") (joinPath path "rootfs") "" MS_BIND ""],
         (prepareRO env path).2) := by
  rw [prepareFilesystem_notExist env path runtime h1 h2 h3, prepareRO_trace]

/-- C4 witness: with no lower directory and an all-success environment,
prepare on the empty config issues exactly the probe and the single
rootfs self-bind mount. -/
theorem C4_witness :
    prepareFilesystem envNoLower "/c" emptyRuntime
      = ([Call.stat (joinPath "/c" "lower"),
          Call.mount (joinPath "/c" "rootfs") (joinPath "/c" "rootfs") "" MS_BIND ""],
         (prepareRO envNoLower "/c").2) := by
  have h := C4_readonly_single_mount envNoLower "/c" emptyRuntime rfl rfl rfl
  simpa using h

/-- C6: the mounts loop handles the list head before the tail: it first
creates the destination directory recursively with mode 0755 and aborts
with an error naming the destination if that fails; otherwise it mounts
with the translated options and aborts with an error naming the mount's
source if that fails; only when both succeed does it continue with the
remaining mounts; and a mounts-loop failure makes prepareFilesystem stop
there, skipping the mkdir loop and the strategy entirely. -/
theorem C6_mounts_in_order (env : Env) (m : MountSpec) (rest : List MountSpec)
    (path : String) (runtime : Runtime) :
    (∀ e, env.mkdirAll m.destination 0o755 = some e →
       mountsLoop env (m :: rest)
         = ([Call.mkdirAll m.destination 0o755], .error (.mkdirDest m.destination e)))
    ∧ (∀ e, env.mkdirAll m.destination 0o755 = none →
       env.mount m.source m.destination m.type
           (parseMountOptions m.options).1 (parseMountOptions m.options).2 = some e →
       mountsLoop env (m :: rest)
         = ([Call.mkdirAll m.destination 0o755,
             Call.mount m.source m.destination m.type
               (parseMountOptions m.options).1 (parseMountOptions m.options).2],
            .error (.mountFailed m.source e)))
    ∧ (env.mkdirAll m.destination 0o755 = none →
       env.mount m.source m.destination m.type
           (parseMountOptions m.options).1 (parseMountOptions m.options).2 = none →
       mountsLoop env (m :: rest)
         = (Call.mkdirAll m.destination 0o755
             :: Call.mount m.source m.destination m.type
                  (parseMountOptions m.options).1 (parseMountOptions m.options).2
             :: (mountsLoop env rest).1,
            (mountsLoop env rest).2))
    ∧ (∀ e, (mountsLoop env runtime.mounts).2 = .error e →
       prepareFilesystem env path runtime = ((mountsLoop env runtime.mounts).1, .error e)) := by
  refine ⟨fun e hd => ?_, fun e hd hm => ?_, fun hd hm => ?_,
    fun e he => prepareFilesystem_mountsErr env path runtime e he⟩
  · simp [mountsLoop, hd]
  · simp [mountsLoop, hd, hm]
  · simp [mountsLoop, hd, hm]

/-- C6 witness: in an environment where every mount fails, the loop on a
single mount issues the mkdir and the mount and aborts with the error
naming the failing mount's source. -/
theorem C6_witness :
    mountsLoop envMountFails [{ source := "proc", destination := "/proc", type := "proc",
                                options := [] }]
      = ([Call.mkdirAll "/proc" 0o755, Call.mount "proc" "/proc" "proc" 0 ""],
         .error (.mountFailed "proc" "EPERM")) :=
  (C6_mounts_in_order envMountFails
      { source := "proc", destination := "/proc", type := "proc", options := [] }
      [] "/c" emptyRuntime).2.1 "EPERM" rfl rfl

/-- C7: bindNS with an empty host path returns success with no calls at
all; with a non-empty path it creates the parent directories recursively
with mode 0755, creates the file, closes it and bind-mounts
/proc/pid/ns/kind onto it, aborting with the corresponding error when
the mkdir, the create or the bind mount fails. -/
theorem C7_bindNS (env : Env) (ns : String) (path : String) (pid : Int) :
    (path = "" → bindNS env ns path pid = ([], .ok ()))
    ∧ (path ≠ "" →
        (∀ e, env.mkdirAll (dirOf path) 0o755 = some e →
           bindNS env ns path pid
             = ([Call.mkdirAll (dirOf path) 0o755], .error (.bindMkdir (dirOf path) e)))
        ∧ (∀ e, env.mkdirAll (dirOf path) 0o755 = none →
           env.createFile path = some e →
           bindNS env ns path pid
             = ([Call.mkdirAll (dirOf path) 0o755, Call.createFile path],
                .error (.bindCreate path e)))
        ∧ (env.mkdirAll (dirOf path) 0o755 = none →
           env.createFile path = none →
           env.closeFile path = none →
             (∀ e, env.mount (procNsPath pid ns) path "" MS_BIND "" = some e →
               bindNS env ns path pid
                 = ([Call.mkdirAll (dirOf path) 0o755, Call.createFile path,
                     Call.closeFile path, Call.mount (procNsPath pid ns) path "" MS_BIND ""],
                    .error (.bindMount ns path e)))
             ∧ (env.mount (procNsPath pid ns) path "" MS_BIND "" = none →
               bindNS env ns path pid
                 = ([Call.mkdirAll (dirOf path) 0o755, Call.createFile path,
                     Call.closeFile path, Call.mount (procNsPath pid ns) path "" MS_BIND ""],
                    .ok ())))) := by
  refine ⟨fun h => by simp [bindNS, h],
    fun h => ⟨fun e hd => ?_, fun e hd hc => ?_,
      fun hd hc hcl => ⟨fun e hm => ?_, fun hm => ?_⟩⟩⟩
  · simp [bindNS, h, hd]
  · simp [bindNS, h, hd, hc]
  · simp [bindNS, h, hd, hc, hcl, hm]
  · simp [bindNS, h, hd, hc, hcl, hm]

/-- C7 witness: in the all-success environment with a non-empty path,
bindNS issues exactly the mkdir, create, close and bind mount calls and
succeeds; with the empty path it issues nothing. -/
theorem C7_witness :
    bindNS envOk "net" "" 7 = ([], .ok ())
    ∧ bindNS envOk "net" "/some/path" 7
      = ([Call.mkdirAll (dirOf "/some/path") 0o755, Call.createFile "/some/path",
          Call.closeFile "/some/path",
          Call.mount (procNsPath 7 "net") "/some/path" "" MS_BIND ""],
         .ok ()) :=
  ⟨(C7_bindNS envOk "net" "" 7).1 rfl,
   (((C7_bindNS envOk "net" "/some/path" 7).2 (by simp)).2.2 rfl rfl rfl).2 rfl⟩

/-- C8: an interface with creation kind veth and an empty peer makes the
interfaces loop fail with the missing-peer error before any call is
issued — its step's trace is empty, so no link-creation call is made and
no subsequent interface of the list is processed. -/
theorem C8_veth_missing_peer (env : Env) (pid : Int) (iface : Iface) (rest : List Iface)
    (hname : iface.name ≠ "") (hadd : iface.add = "veth") (hpeer : iface.peer = "") :
    ifaceStep env pid iface = ([], .error (.vethNoPeer iface.name))
    ∧ ifaceLoop env pid (iface :: rest) = ([], .error (.vethNoPeer iface.name)) := by
  have hstep : ifaceStep env pid iface = ([], .error (.vethNoPeer iface.name)) := by
    simp [ifaceStep, hname, hadd, hpeer]
  exact ⟨hstep, by simp [ifaceLoop, hstep]⟩

/-- C8 witness: a veth interface with no peer aborts the loop at once
with the missing-peer error and an empty trace. -/
theorem C8_witness :
    ifaceStep envOk 5 { name := "veth0", add := "veth", peer := "", createInRoot := false }
      = ([], .error (.vethNoPeer "veth0"))
    ∧ ifaceLoop envOk 5
        [{ name := "veth0", add := "veth", peer := "", createInRoot := false },
         { name := "eth1", add := "bridge", peer := "", createInRoot := false }]
      = ([], .error (.vethNoPeer "veth0")) :=
  C8_veth_missing_peer envOk 5
    { name := "veth0", add := "veth", peer := "", createInRoot := false }
    [{ name := "eth1", add := "bridge", peer := "", createInRoot := false }]
    (by simp) rfl rfl

/-- Every call issued by the trailing move of an interface iteration is
a netlink call. -/
theorem moveStep_calls (env : Env) (pid : Int) (name : String) (link : Link) (mv : Bool) :
    ∀ c ∈ (moveStep env pid name link mv).1, c.isNetlink = true := by
  intro c hc
  cases mv with
  | false => simp [moveStep] at hc
  | true =>
    cases h : env.linkSetNsPid link pid <;> simp [moveStep, h] at hc <;> subst hc <;> rfl

/-- Every call issued by one interface iteration is a netlink call. -/
theorem ifaceStep_calls (env : Env) (pid : Int) (i : Iface) :
    ∀ c ∈ (ifaceStep env pid i).1, c.isNetlink = true := by
  intro c hc
  unfold ifaceStep at hc
  repeat' split at hc
  all_goals (try simp at hc)
  all_goals (repeat' split at hc)
  all_goals (try simp at hc)
  all_goals
    first
      | (rcases hc with rfl | hc
         · rfl
         · exact moveStep_calls env pid _ _ _ c hc)
      | (subst hc; rfl)

/-- Every call issued by the interfaces loop is a netlink call. -/
theorem ifaceLoop_calls (env : Env) (pid : Int) (l : List Iface) :
    ∀ c ∈ (ifaceLoop env pid l).1, c.isNetlink = true := by
  induction l with
  | nil => intro c hc; simp [ifaceLoop] at hc
  | cons i rest ih =>
    intro c hc
    unfold ifaceLoop at hc
    rcases hs : ifaceStep env pid i with ⟨t, r⟩
    rw [hs] at hc
    have hstep : ∀ c2 ∈ t, Call.isNetlink c2 = true := by
      intro c2 hc2
      have h3 := ifaceStep_calls env pid i c2
      rw [hs] at h3
      exact h3 hc2
    cases r with
    | error e =>
      simp only at hc
      exact hstep c hc
    | ok u =>
      simp only [List.mem_append] at hc
      rcases hc with hc | hc
      · exact hstep c hc
      · exact ih c hc

/-- C10: prepareProcess provisions all interfaces before any namespace
bind: when the interfaces loop fails, prepareProcess returns its trace
and error unchanged and every call issued so far is a netlink call (so
no bind's filesystem or mount call was attempted); when it succeeds, the
namespace binds run after the whole interface trace, in the fixed order
cgroup, ipc, mnt, net, pid, user, uts. -/
theorem C10_interfaces_before_binds (env : Env) (pid : Int) (runtime : Runtime) :
    (∀ e, (ifaceLoop env pid runtime.interfaces).2 = .error e →
       prepareProcess env pid runtime = ((ifaceLoop env pid runtime.interfaces).1, .error e)
       ∧ ∀ c ∈ (prepareProcess env pid runtime).1, c.isNetlink = true)
    ∧ ((ifaceLoop env pid runtime.interfaces).2 = .ok () →
       prepareProcess env pid runtime
         = ((ifaceLoop env pid runtime.interfaces).1
             ++ (bindsLoop env pid
                  [("cgroup", runtime.bindNS.cgroup), ("ipc", runtime.bindNS.ipc),
                   ("mnt", runtime.bindNS.mnt), ("net", runtime.bindNS.net),
                   ("pid", runtime.bindNS.pid), ("user", runtime.bindNS.user),
                   ("uts", runtime.bindNS.uts)]).1,
            (bindsLoop env pid
                  [("cgroup", runtime.bindNS.cgroup), ("ipc", runtime.bindNS.ipc),
                   ("mnt", runtime.bindNS.mnt), ("net", runtime.bindNS.net),
                   ("pid", runtime.bindNS.pid), ("user", runtime.bindNS.user),
                   ("uts", runtime.bindNS.uts)]).2)) := by
  constructor
  · intro e he
    rcases hi : ifaceLoop env pid runtime.interfaces with ⟨t, r⟩
    rw [hi] at he
    simp only at he
    subst he
    have hp : prepareProcess env pid runtime = (t, .error e) := by
      simp [prepareProcess, hi]
    refine ⟨by simp [hp, hi], ?_⟩
    rw [hp]
    intro c hc
    have h3 := ifaceLoop_calls env pid runtime.interfaces c
    rw [hi] at h3
    exact h3 hc
  · intro he
    rcases hi : ifaceLoop env pid runtime.interfaces with ⟨t, r⟩
    rw [hi] at he
    simp only at he
    subst he
    simp [prepareProcess, hi, bindsList]

/-- A runtime with one generic interface and no namespace binds, used to
witness C10. -/
def runtimeIfaceOnly : Runtime :=
  { emptyRuntime with interfaces := [{ name := "eth0", add := "bridge", peer := "",
                                       createInRoot := false }] }

/-- C10 witness: with one successfully created interface, prepareProcess
runs the interface's netlink call and then the (here all-empty) binds in
the fixed order. -/
theorem C10_witness :
    prepareProcess envOk 7 runtimeIfaceOnly
      = ((ifaceLoop envOk 7 runtimeIfaceOnly.interfaces).1
          ++ (bindsLoop envOk 7
               [("cgroup", runtimeIfaceOnly.bindNS.cgroup), ("ipc", runtimeIfaceOnly.bindNS.ipc),
                ("mnt", runtimeIfaceOnly.bindNS.mnt), ("net", runtimeIfaceOnly.bindNS.net),
                ("pid", runtimeIfaceOnly.bindNS.pid), ("user", runtimeIfaceOnly.bindNS.user),
                ("uts", runtimeIfaceOnly.bindNS.uts)]).1,
         (bindsLoop envOk 7
               [("cgroup", runtimeIfaceOnly.bindNS.cgroup), ("ipc", runtimeIfaceOnly.bindNS.ipc),
                ("mnt", runtimeIfaceOnly.bindNS.mnt), ("net", runtimeIfaceOnly.bindNS.net),
                ("pid", runtimeIfaceOnly.bindNS.pid), ("user", runtimeIfaceOnly.bindNS.user),
                ("uts", runtimeIfaceOnly.bindNS.uts)]).2) :=
  (C10_interfaces_before_binds envOk 7 runtimeIfaceOnly).2 rfl

end Prepare
